import Mathlib

/-!
Verification of the stellar-fee-tracker core against its specification.

The definitions below are a shallow embedding of the Rust sources:
  * `packages/core/src/services/mock_horizon.rs` — the configurable test
    double `MockHorizonClient` (state-passing embedding: methods that
    mutate through the atomic call counter return the updated client).
  * `packages/core/src/error.rs` — the application error taxonomy
    `AppError` and its HTTP status mapping `into_response`.
  * `packages/core/src/insights/` — the tracker and engine modules are
    declared in `insights/mod.rs` but their bodies are not part of the
    sources at hand; they are modelled from the specification where a
    claim needs them (marked `Modelled from the spec:`).
-/

/-- One observed fee sample, from `insights/types.rs` as used by
`mock_horizon.rs` and described in the spec's data model: a non-negative
integer fee, a UTC timestamp (modelled as an integer instant), an opaque
transaction hash, and a ledger sequence number. -/
structure FeeDataPoint where
  fee_amount : Nat
  timestamp : Int
  transaction_hash : String
  ledger_sequence : Nat
deriving DecidableEq, Repr

/-- `ProviderError` from `insights/error.rs`: the closed provider failure
taxonomy used by `mock_horizon.rs`. -/
inductive ProviderError where
  | NetworkError (message : String)
  | FormatError (message : String)
  | AuthError (message : String)
  | RateLimitExceeded
  | ServiceUnavailable
deriving DecidableEq, Repr

/-- `ProviderMetadata` from `insights/provider.rs`: the static capability
descriptor returned by `get_metadata`. -/
structure ProviderMetadata where
  supports_historical : Bool
  max_batch_size : Nat
  rate_limit_per_minute : Option Nat
  data_freshness_seconds : Nat
deriving DecidableEq, Repr

/-- The state of a `MockHorizonClient` (`mock_horizon.rs`, lines 27-36):
configured responses, optional configured error, the call counter (the
`Arc<AtomicUsize>` modelled as a natural number), and the healthy flag. -/
structure MockHorizonClient where
  responses : List FeeDataPoint
  error : Option ProviderError
  call_count : Nat
  healthy : Bool
deriving DecidableEq, Repr

/-- `MockHorizonClient::new` (lines 40-47): no responses, no error,
counter at zero, healthy. -/
def MockHorizonClient.new : MockHorizonClient :=
  { responses := []
    error := none
    call_count := 0
    healthy := true }

/-- `MockHorizonClient::with_fees` (lines 50-53). -/
def MockHorizonClient.with_fees (c : MockHorizonClient)
    (fees : List FeeDataPoint) : MockHorizonClient :=
  { c with responses := fees }

/-- `MockHorizonClient::with_error` (lines 56-59). -/
def MockHorizonClient.with_error (c : MockHorizonClient)
    (e : ProviderError) : MockHorizonClient :=
  { c with error := some e }

/-- `MockHorizonClient::with_healthy` (lines 62-65). -/
def MockHorizonClient.with_healthy (c : MockHorizonClient)
    (h : Bool) : MockHorizonClient :=
  { c with healthy := h }

/-- `MockHorizonClient::calls` (lines 68-70): read the counter. -/
def MockHorizonClient.calls (c : MockHorizonClient) : Nat :=
  c.call_count

/-- `Default::default` for `MockHorizonClient` (lines 73-77): delegates
to `new`. -/
def MockHorizonClient.default : MockHorizonClient :=
  MockHorizonClient.new

/-- The variant-by-variant clone of the configured error performed inside
`fetch_latest_fees` (lines 86-98), written because `ProviderError` is not
`Clone` in the source. -/
def cloneProviderError : ProviderError → ProviderError
  | ProviderError.NetworkError message => ProviderError.NetworkError message
  | ProviderError.FormatError message => ProviderError.FormatError message
  | ProviderError.AuthError message => ProviderError.AuthError message
  | ProviderError.RateLimitExceeded => ProviderError.RateLimitExceeded
  | ProviderError.ServiceUnavailable => ProviderError.ServiceUnavailable

/-- `MockHorizonClient::fetch_latest_fees` (lines 81-102): increment the
call counter, then return the cloned configured error if one is set,
otherwise a clone of the configured responses.  State-passing embedding:
the result is paired with the updated client. -/
def MockHorizonClient.fetch_latest_fees (c : MockHorizonClient) :
    Except ProviderError (List FeeDataPoint) × MockHorizonClient :=
  let c' := { c with call_count := c.call_count + 1 }
  match c.error with
  | some err => (Except.error (cloneProviderError err), c')
  | none => (Except.ok c.responses, c')

/-- `MockHorizonClient::provider_name` (lines 104-106). -/
def MockHorizonClient.provider_name (_ : MockHorizonClient) : String :=
  "MockHorizon"

/-- `MockHorizonClient::health_check` (lines 108-114): `Ok(())` when
healthy, `Err(ServiceUnavailable)` otherwise.  State-passing embedding:
the method takes `&self` and touches no interior-mutable state, so the
returned client is the input unchanged. -/
def MockHorizonClient.health_check (c : MockHorizonClient) :
    Except ProviderError Unit × MockHorizonClient :=
  if c.healthy then (Except.ok (), c) else (Except.error ProviderError.ServiceUnavailable, c)

/-- `MockHorizonClient::get_metadata` (lines 116-123): a fixed
`ProviderMetadata` value, independent of the client state. -/
def MockHorizonClient.get_metadata (_ : MockHorizonClient) : ProviderMetadata :=
  { supports_historical := false
    max_batch_size := 100
    rate_limit_per_minute := none
    data_freshness_seconds := 5 }

/-- `AppError` from `error.rs` (lines 16-21): the application-level
error taxonomy. -/
inductive AppError where
  | Config (msg : String)
  | Network (msg : String)
  | Parse (msg : String)
  | Unknown (msg : String)
deriving DecidableEq, Repr

/-- The HTTP status code chosen by `AppError::into_response`
(`error.rs`, lines 38-43). -/
def AppError.statusCode : AppError → Nat
  | AppError.Config _ => 500
  | AppError.Network _ => 502
  | AppError.Parse _ => 422
  | AppError.Unknown _ => 500

/-- The `Display` rendering of `AppError` (`error.rs`, lines 24-31),
which `into_response` embeds in the JSON body. -/
def AppError.display : AppError → String
  | AppError.Config msg => "Config error: " ++ msg
  | AppError.Network msg => "Network error: " ++ msg
  | AppError.Parse msg => "Parse error: " ++ msg
  | AppError.Unknown msg => "Unknown error: " ++ msg

/-- The cloned error is structurally equal to the configured one: the
variant match in `fetch_latest_fees` rebuilds the same variant with the
same message. -/
theorem cloneProviderError_eq (e : ProviderError) : cloneProviderError e = e := by
  cases e <;> rfl

/-- C1: if an error is configured, every `fetch_latest_fees` call returns
`Err` with a value structurally equal to the configured error and never
the configured points; with no error configured it returns `Ok` of
exactly the configured point sequence, in order. -/
theorem mock_fetch_error_suppresses_points (c : MockHorizonClient) :
    (∀ e, c.error = some e →
      (c.fetch_latest_fees).fst = Except.error e) ∧
    (c.error = none →
      (c.fetch_latest_fees).fst = Except.ok c.responses) := by
  constructor
  · intro e he
    simp [MockHorizonClient.fetch_latest_fees, he, cloneProviderError_eq]
  · intro he
    simp [MockHorizonClient.fetch_latest_fees, he]

/-- C1 witness: a client configured with a network error returns exactly
that error, and one configured only with points returns them. -/
theorem mock_fetch_error_suppresses_points_witness :
    (((MockHorizonClient.new.with_fees
        [⟨7, 0, "h7", 1⟩]).with_error
          (ProviderError.NetworkError "boom")).fetch_latest_fees).fst
      = Except.error (ProviderError.NetworkError "boom") ∧
    ((MockHorizonClient.new.with_fees
        [⟨7, 0, "h7", 1⟩]).fetch_latest_fees).fst
      = Except.ok [⟨7, 0, "h7", 1⟩] :=
  ⟨(mock_fetch_error_suppresses_points _).1 _ rfl,
   (mock_fetch_error_suppresses_points _).2 rfl⟩

/-- C2: every invocation of `fetch_latest_fees` increments the call
counter by exactly one regardless of outcome, and `health_check` leaves
the counter unchanged. -/
theorem mock_counter_discipline (c : MockHorizonClient) :
    (c.fetch_latest_fees).snd.call_count = c.call_count + 1 ∧
    (c.health_check).snd.call_count = c.call_count := by
  refine ⟨?_, ?_⟩
  · cases h : c.error <;> simp [MockHorizonClient.fetch_latest_fees, h]
  · by_cases h : c.healthy <;> simp [MockHorizonClient.health_check, h]

/-- C3: `health_check` depends only on the healthy flag, and
`fetch_latest_fees` results depend only on the configured points and
error — the two signals are fully independent. -/
theorem mock_health_fetch_independent (a b : MockHorizonClient) :
    (a.healthy = b.healthy →
      (a.health_check).fst = (b.health_check).fst) ∧
    (a.responses = b.responses → a.error = b.error →
      (a.fetch_latest_fees).fst = (b.fetch_latest_fees).fst) := by
  constructor
  · intro h
    by_cases hb : b.healthy <;>
      simp [MockHorizonClient.health_check, h, hb]
  · intro hr he
    cases h2 : b.error <;>
      simp [MockHorizonClient.fetch_latest_fees, he, h2, hr]

/-- C3 witness: configuring a fetch error does not change the
`health_check` result, and flipping the healthy flag does not change the
`fetch_latest_fees` result. -/
theorem mock_health_fetch_independent_witness :
    ((MockHorizonClient.new.with_error
        ProviderError.RateLimitExceeded).health_check).fst
      = (MockHorizonClient.new.health_check).fst ∧
    ((MockHorizonClient.new.with_healthy false).fetch_latest_fees).fst
      = (MockHorizonClient.new.fetch_latest_fees).fst :=
  ⟨(mock_health_fetch_independent _ _).1 rfl,
   (mock_health_fetch_independent _ _).2 rfl rfl⟩

/-- C4 counterexample: `Config` and `Unknown` are distinct `AppError`
variants yet `into_response` maps both to status 500, so the
variant-to-status mapping is not injective. -/
theorem appError_status_not_injective :
    (AppError.Config "cfg").statusCode
      = (AppError.Unknown "other").statusCode ∧
    AppError.Config "cfg" ≠ AppError.Unknown "other" := by
  refine ⟨rfl, ?_⟩
  intro h
  exact AppError.noConfusion h

/-- C4 amended: `into_response` maps Config to 500, Network to 502,
Parse to 422 and Unknown to 500; Network, Parse and the shared 500
status are pairwise distinct, so the mapping is injective on the
variants Config, Network, Parse, while Unknown coincides with Config. -/
theorem appError_status_mapping (m : String) :
    (AppError.Config m).statusCode = 500 ∧
    (AppError.Network m).statusCode = 502 ∧
    (AppError.Parse m).statusCode = 422 ∧
    (AppError.Unknown m).statusCode = 500 ∧
    (AppError.Network m).statusCode ≠ (AppError.Parse m).statusCode ∧
    (AppError.Network m).statusCode ≠ (AppError.Config m).statusCode ∧
    (AppError.Parse m).statusCode ≠ (AppError.Config m).statusCode := by
  refine ⟨rfl, rfl, rfl, rfl, ?_, ?_, ?_⟩ <;> simp [AppError.statusCode]

/-- C5: `health_check` returns `Ok(())` exactly when the healthy flag is
true and `Err(ServiceUnavailable)` exactly when it is false. -/
theorem mock_health_check_characterisation (c : MockHorizonClient) :
    ((c.health_check).fst = Except.ok () ↔ c.healthy = true) ∧
    ((c.health_check).fst
        = Except.error ProviderError.ServiceUnavailable
      ↔ c.healthy = false) := by
  by_cases h : c.healthy <;> simp [MockHorizonClient.health_check, h]

/-- C6: `get_metadata` always returns the fixed metadata value
regardless of the client configuration (and, being a pure function of no
fields, is side-effect-free). -/
theorem mock_get_metadata_fixed (c : MockHorizonClient) :
    c.get_metadata
      = { supports_historical := false
          max_batch_size := 100
          rate_limit_per_minute := none
          data_freshness_seconds := 5 } := rfl

/-- C9: a fresh client (via `new` or `default`) has call count 0, no
error, is healthy, its first fetch returns `Ok` of the empty sequence,
and its `health_check` returns `Ok(())`. -/
theorem mock_new_initial_state :
    MockHorizonClient.new.call_count = 0 ∧
    MockHorizonClient.new.error = none ∧
    MockHorizonClient.new.healthy = true ∧
    MockHorizonClient.default = MockHorizonClient.new ∧
    (MockHorizonClient.new.fetch_latest_fees).fst = Except.ok [] ∧
    (MockHorizonClient.new.health_check).fst = Except.ok () :=
  ⟨rfl, rfl, rfl, rfl, rfl, rfl⟩

/-- C10: `fetch_latest_fees` mutates only the call counter — responses,
error and healthy flag are preserved — so a second call on the same
configuration returns the same result. -/
theorem mock_fetch_frame (c : MockHorizonClient) :
    (c.fetch_latest_fees).snd.responses = c.responses ∧
    (c.fetch_latest_fees).snd.error = c.error ∧
    (c.fetch_latest_fees).snd.healthy = c.healthy ∧
    ((c.fetch_latest_fees).snd.fetch_latest_fees).fst
      = (c.fetch_latest_fees).fst := by
  cases h : c.error <;> simp [MockHorizonClient.fetch_latest_fees, h]

/-- From-scratch minimum of a list of fees: `none` on the empty window. -/
def listMin : List Nat → Option Nat
  | [] => none
  | f :: rest =>
    match listMin rest with
    | none => some f
    | some m => some (Nat.min f m)

/-- From-scratch maximum of a list of fees: `none` on the empty window. -/
def listMax : List Nat → Option Nat
  | [] => none
  | f :: rest =>
    match listMax rest with
    | none => some f
    | some m => some (Nat.max f m)

/-- Modelled from the spec: `insights/tracker.rs` is declared in
`insights/mod.rs` but its body is not among the sources.  Spec section
4.3: the Tracker maintains the current min and max over the Window; on
eviction of a point it recomputes the extremes from the live Window
(strategy (a), explicitly allowed); querying an empty window returns a
documented sentinel (0) rather than an error.  The window holds the fee
amounts, front = oldest. -/
structure Tracker where
  window : List Nat
  curMin : Option Nat
  curMax : Option Nat
deriving DecidableEq, Repr

/-- The fresh tracker: empty window, no cached extremes. -/
def Tracker.empty : Tracker :=
  { window := [], curMin := none, curMax := none }

/-- Ingest one fee: append to the window and fold it into the cached
extremes incrementally. -/
def Tracker.ingest (t : Tracker) (fee : Nat) : Tracker :=
  { window := t.window ++ [fee]
    curMin := some (match t.curMin with
                    | none => fee
                    | some m => Nat.min m fee)
    curMax := some (match t.curMax with
                    | none => fee
                    | some m => Nat.max m fee) }

/-- Evict the oldest point: drop the window front and recompute the
cached extremes from the remaining window (the evicted point may have
been the extremum, so a cached value alone cannot survive eviction). -/
def Tracker.evict (t : Tracker) : Tracker :=
  match t.window with
  | [] => t
  | _ :: rest => { window := rest, curMin := listMin rest, curMax := listMax rest }

/-- `min()` query: the cached minimum, sentinel 0 on an empty window. -/
def Tracker.min (t : Tracker) : Nat :=
  t.curMin.getD 0

/-- `max()` query: the cached maximum, sentinel 0 on an empty window. -/
def Tracker.max (t : Tracker) : Nat :=
  t.curMax.getD 0

/-- One tracker operation: ingest a fee or evict the oldest point. -/
inductive TrackerOp where
  | ingest (fee : Nat)
  | evict
deriving DecidableEq, Repr

/-- Apply one operation to a tracker. -/
def Tracker.apply (t : Tracker) : TrackerOp → Tracker
  | TrackerOp.ingest fee => t.ingest fee
  | TrackerOp.evict => t.evict

/-- Run a sequence of operations from the fresh tracker. -/
def Tracker.run (ops : List TrackerOp) : Tracker :=
  ops.foldl Tracker.apply Tracker.empty

/-- The tracker invariant: the cached extremes agree with a from-scratch
recomputation over the live window. -/
def Tracker.Coherent (t : Tracker) : Prop :=
  t.curMin = listMin t.window ∧ t.curMax = listMax t.window

/-- Appending one fee updates the from-scratch minimum by a single fold
step. -/
theorem listMin_append (l : List Nat) (a : Nat) :
    listMin (l ++ [a])
      = some (match listMin l with
              | none => a
              | some m => Nat.min m a) := by
  induction l with
  | nil => rfl
  | cons f rest ih =>
    cases h : listMin rest with
    | none =>
      simp only [h] at ih
      simp [List.cons_append, listMin, ih, h]
    | some m =>
      simp only [h] at ih
      simp [List.cons_append, listMin, ih, h, Nat.min_assoc]

/-- Appending one fee updates the from-scratch maximum by a single fold
step. -/
theorem listMax_append (l : List Nat) (a : Nat) :
    listMax (l ++ [a])
      = some (match listMax l with
              | none => a
              | some m => Nat.max m a) := by
  induction l with
  | nil => rfl
  | cons f rest ih =>
    cases h : listMax rest with
    | none =>
      simp only [h] at ih
      simp [List.cons_append, listMax, ih, h]
    | some m =>
      simp only [h] at ih
      simp [List.cons_append, listMax, ih, h, Nat.max_assoc]

/-- Ingestion preserves the tracker invariant. -/
theorem Tracker.ingest_coherent {t : Tracker} (h : t.Coherent) (fee : Nat) :
    (t.ingest fee).Coherent := by
  obtain ⟨hmin, hmax⟩ := h
  constructor
  · simp [Tracker.ingest, listMin_append, hmin]
  · simp [Tracker.ingest, listMax_append, hmax]

/-- Eviction preserves the tracker invariant. -/
theorem Tracker.evict_coherent {t : Tracker} (h : t.Coherent) :
    t.evict.Coherent := by
  cases hw : t.window with
  | nil =>
    obtain ⟨hmin, hmax⟩ := h
    exact ⟨by simp [Tracker.evict, hw, hmin], by simp [Tracker.evict, hw, hmax]⟩
  | cons f rest =>
    exact ⟨by simp [Tracker.evict, hw], by simp [Tracker.evict, hw]⟩

/-- Every tracker reached from a coherent one by a sequence of
operations is coherent. -/
theorem Tracker.foldl_coherent (ops : List TrackerOp) :
    ∀ t : Tracker, t.Coherent → (ops.foldl Tracker.apply t).Coherent := by
  induction ops with
  | nil => intro t h; exact h
  | cons op rest ih =>
    intro t h
    simp only [List.foldl_cons]
    apply ih
    cases op with
    | ingest fee => exact Tracker.ingest_coherent h fee
    | evict => exact Tracker.evict_coherent h

/-- C8: after every sequence of ingest/evict operations, `min()` and
`max()` equal the true minimum and maximum of the fees currently in the
Window (a from-scratch recomputation over the remaining points), and
querying an empty window returns the sentinel 0 rather than an error. -/
theorem tracker_extremes_correct (ops : List TrackerOp) :
    ((Tracker.run ops).min = (listMin (Tracker.run ops).window).getD 0 ∧
     (Tracker.run ops).max = (listMax (Tracker.run ops).window).getD 0) ∧
    ((Tracker.run ops).window = [] →
      (Tracker.run ops).min = 0 ∧ (Tracker.run ops).max = 0) := by
  obtain ⟨hmin, hmax⟩ :=
    Tracker.foldl_coherent ops Tracker.empty ⟨rfl, rfl⟩
  refine ⟨⟨?_, ?_⟩, ?_⟩
  · simp [Tracker.run, Tracker.min, hmin]
  · simp [Tracker.run, Tracker.max, hmax]
  · intro hw
    simp only [Tracker.run] at hw
    constructor
    · simp only [Tracker.run, Tracker.min, hmin, hw]
      rfl
    · simp only [Tracker.run, Tracker.max, hmax, hw]
      rfl

/-- C8 witness: ingesting 5 then evicting it leaves an empty window on
which both queries return the sentinel 0. -/
theorem tracker_extremes_correct_witness :
    (Tracker.run [TrackerOp.ingest 5, TrackerOp.evict]).min = 0 ∧
    (Tracker.run [TrackerOp.ingest 5, TrackerOp.evict]).max = 0 :=
  (tracker_extremes_correct [TrackerOp.ingest 5, TrackerOp.evict]).2 rfl

/-- Modelled from the spec: `insights/calculator.rs` is declared in
`insights/mod.rs` but its body is not among the sources.  Spec section
4.2: running sum and count; ingestion adds the fee and increments the
count, eviction subtracts and decrements; `average` is sum/count with
the documented policy that the average of an empty window is 0. -/
structure Calculator where
  sum : Nat
  count : Nat
deriving DecidableEq, Repr

/-- Fold one fee into the running sum and count. -/
def Calculator.ingest (c : Calculator) (fee : Nat) : Calculator :=
  { sum := c.sum + fee, count := c.count + 1 }

/-- Remove one evicted fee from the running sum and count. -/
def Calculator.evict (c : Calculator) (fee : Nat) : Calculator :=
  { sum := c.sum - fee, count := c.count - 1 }

/-- `average()`: sum/count, 0 on an empty window. -/
def Calculator.average (c : Calculator) : Nat :=
  if c.count = 0 then 0 else c.sum / c.count

/-- The computed summary published at the end of a successful cycle
(spec data model `FeeSnapshot`, fee magnitudes kept as exact naturals). -/
structure FeeSnapshot where
  min_fee : Nat
  max_fee : Nat
  avg_fee : Nat
deriving DecidableEq, Repr

/-- Modelled from the spec: `insights/engine.rs` is declared in
`insights/mod.rs` but its body is not among the sources.  Spec section
4.5: the engine exclusively owns the Window, Calculator state, Tracker
state and the current-Snapshot cell, and records consecutive fetch
failures. -/
structure FeeInsightsEngine where
  window : List FeeDataPoint
  calculator : Calculator
  tracker : Tracker
  current_snapshot : Option FeeSnapshot
  consecutive_failures : Nat
deriving DecidableEq, Repr

/-- Append one fetched point to the Window and fold its fee into the
Calculator and Tracker. -/
def FeeInsightsEngine.ingestPoint (e : FeeInsightsEngine)
    (p : FeeDataPoint) : FeeInsightsEngine :=
  { e with
    window := e.window ++ [p]
    calculator := e.calculator.ingest p.fee_amount
    tracker := e.tracker.ingest p.fee_amount }

/-- Evict the oldest point from the Window, Calculator and Tracker. -/
def FeeInsightsEngine.evictOldest (e : FeeInsightsEngine) : FeeInsightsEngine :=
  match e.window with
  | [] => e
  | old :: rest =>
    { e with
      window := rest
      calculator := e.calculator.evict old.fee_amount
      tracker := e.tracker.evict }

/-- Evict oldest points until the Window is within the configured bound
(fuel-indexed: the fuel is the current window length). -/
def FeeInsightsEngine.evictToBound : Nat → FeeInsightsEngine → Nat → FeeInsightsEngine
  | 0, e, _ => e
  | fuel + 1, e, bound =>
    if e.window.length ≤ bound then e
    else FeeInsightsEngine.evictToBound fuel e.evictOldest bound

/-- Modelled from the spec: one engine cycle given the provider fetch
result (spec section 4.5).  On a fetch error the cycle is aborted: the
failure is counted but Window, Calculator, Tracker and the current
Snapshot are untouched.  On success the fetched points are ingested, the
Window is evicted back to the configured bound, the failure streak is
reset and a fresh Snapshot is assembled and published. -/
def FeeInsightsEngine.run_cycle (e : FeeInsightsEngine) (bound : Nat)
    (fetched : Except ProviderError (List FeeDataPoint)) : FeeInsightsEngine :=
  match fetched with
  | Except.error _ =>
    { e with consecutive_failures := e.consecutive_failures + 1 }
  | Except.ok points =>
    let e1 := points.foldl FeeInsightsEngine.ingestPoint e
    let e2 := FeeInsightsEngine.evictToBound e1.window.length e1 bound
    { e2 with
      consecutive_failures := 0
      current_snapshot := some
        { min_fee := e2.tracker.min
          max_fee := e2.tracker.max
          avg_fee := e2.calculator.average } }

/-- C7: whenever a provider fetch returns a `ProviderError`, the engine
cycle aborts with the Window, Calculator state, Tracker state and the
current Snapshot all unchanged — only the failure counter moves, so the
Snapshot observable before the failed cycle equals the one after it. -/
theorem engine_fetch_failure_preserves_state (e : FeeInsightsEngine)
    (bound : Nat) (err : ProviderError) :
    (e.run_cycle bound (Except.error err)).window = e.window ∧
    (e.run_cycle bound (Except.error err)).calculator = e.calculator ∧
    (e.run_cycle bound (Except.error err)).tracker = e.tracker ∧
    (e.run_cycle bound (Except.error err)).current_snapshot
      = e.current_snapshot ∧
    (e.run_cycle bound (Except.error err)).consecutive_failures
      = e.consecutive_failures + 1 :=
  ⟨rfl, rfl, rfl, rfl, rfl⟩
